import Mathlib

/-!
Shallow embedding of `src/dashboard_tiles/app.py` (a small Flask dashboard).

External effects are modelled explicitly:
  * the network (`requests.get`) is an oracle `Net.fetch : String → FetchOutcome`;
  * HTML parsing (`BeautifulSoup` restricted to the `link` tags the code reads)
    is an oracle `Net.parseLinks` producing the document-order list of link tags;
  * `urllib.parse.urljoin` is an oracle `Net.urljoin` (only its output URL matters);
  * the imaging library (PIL `Image.open(...).convert("RGBA")`) is an oracle
    `Pil.decodeRGBA`; images are tracked by their dimensions only;
  * file writes are returned as values (`FileContent`) instead of performed;
  * functions that perform network calls also return the list of URLs they
    requested, in order, so that absence of a fetch is provable.

Machine strings are Lean `String`; bytes (`requests` response `content`) are
`List Nat`.  Python string operations (`strip`, `lower`, `split`, substring
tests) are modelled by executable functions over the underlying character
lists, and Python `str` truthiness by `String.isEmpty` (the code only meets
ASCII data).
-/

/-- Whether the first character list occurs at the head of the second. -/
def matchHere : List Char → List Char → Bool
  | [], _ => true
  | _ :: _, [] => false
  | a :: as, b :: bs => a == b && matchHere as bs

/-- Whether the first character list occurs anywhere inside the second. -/
def matchInside (needle : List Char) : List Char → Bool
  | [] => matchHere needle []
  | c :: cs => matchHere needle (c :: cs) || matchInside needle cs

/-- Python substring test `needle in hay`. -/
def strContains (hay needle : String) : Bool :=
  matchInside needle.toList hay.toList

/-- Python `str.strip()` on a character list: drop whitespace at both ends
(the code only meets ASCII whitespace). -/
def stripChars (cs : List Char) : List Char :=
  ((cs.dropWhile Char.isWhitespace).reverse.dropWhile Char.isWhitespace).reverse

/-- Python `s.strip()`. -/
def pyStrip (s : String) : String :=
  String.mk (stripChars s.toList)

/-- Python `s.lower()` (the code only lower-cases ASCII data). -/
def pyLower (s : String) : String :=
  String.mk (s.toList.map Char.toLower)

/-- Python `s.startswith(p)`. -/
def pyStartsWith (s p : String) : Bool :=
  matchHere p.toList s.toList

/-- The characters after the last occurrence of `ch`, the whole list when
`ch` is absent: Python `s.split(ch)[-1]` and `s.rsplit(ch, 1)[-1]`. -/
def afterLastChar (ch : Char) (cs : List Char) : List Char :=
  (cs.reverse.takeWhile (fun c => c != ch)).reverse

/-- Python `s.split()` accumulator: split on whitespace runs, dropping empty
pieces. -/
def wordsAux : List Char → List Char → List String
  | [], acc => if acc.isEmpty then [] else [String.mk acc.reverse]
  | c :: cs, acc =>
    if c.isWhitespace then
      if acc.isEmpty then wordsAux cs []
      else String.mk acc.reverse :: wordsAux cs []
    else wordsAux cs (c :: acc)

/-- Python `txt.splitlines()` accumulator (newline-separated, as the netstat
output the code scans). -/
def linesAux : List Char → List Char → List String
  | [], acc => [String.mk acc.reverse]
  | c :: cs, acc =>
    if c = '\n' then String.mk acc.reverse :: linesAux cs []
    else linesAux cs (c :: acc)

/-- Python `value or default` on an optional string field, as used by
`(data.get("k") or d)`: `None` and the empty string are falsy. -/
def pyGetOr (v : Option String) (d : String) : String :=
  match v with
  | none => d
  | some s => if s.isEmpty then d else s

/-- Characters allowed in a URL scheme by `urllib.parse` (letters, digits,
plus, minus, dot). -/
def schemeChar (c : Char) : Bool :=
  c.isAlpha || c.isDigit || c = '+' || c = '-' || c = '.'

/-- The two components of `urllib.parse.urlparse` the code reads. -/
structure ParsedUrl where
  scheme : String
  netloc : String
deriving DecidableEq

/-- Model of `urllib.parse.urlparse`, restricted to the `scheme` and `netloc`
components (the only ones the code uses): the scheme is the lower-cased text
before the first colon when it is non-empty, starts with a letter and consists
of scheme characters; the netloc follows a leading `//` and runs to the first
`/`, `?` or `#`. -/
def pyUrlsplit (url : String) : ParsedUrl :=
  let cs := url.toList
  let before := cs.takeWhile (fun c => c ≠ ':')
  let hasScheme :=
    cs.contains ':' && !before.isEmpty && (cs.headD ' ').isAlpha &&
      before.all schemeChar
  let scheme := if hasScheme then String.mk (before.map Char.toLower) else ""
  let rest := if hasScheme then cs.drop (before.length + 1) else cs
  let netloc :=
    match rest with
    | '/' :: '/' :: r =>
        String.mk (r.takeWhile (fun c => c ≠ '/' && c ≠ '?' && c ≠ '#'))
    | _ => ""
  { scheme := scheme, netloc := netloc }

/-- Python `s.split("@")[-1]`. -/
def afterLastAt (s : String) : String :=
  String.mk (afterLastChar '@' s.toList)

/-- Python `s.split(":")[0]`. -/
def beforeFirstColon (s : String) : String :=
  String.mk (s.toList.takeWhile (fun c => c ≠ ':'))

/-- `parsed.netloc.split("@")[-1].split(":")[0].lower()` from
`fetch_icon_for_url`. -/
def domainOf (netloc : String) : String :=
  pyLower (beforeFirstColon (afterLastAt netloc))

/-- A `<link>` tag as the code reads it: the `rel` attribute (BeautifulSoup
joins a multi-valued `rel` with single spaces; `none` when absent) and the
`href` attribute (`none` when absent). -/
structure LinkTag where
  rel : Option String
  href : Option String
deriving DecidableEq

/-- The filter `lambda v: v and rel in v.lower()` passed to `soup.find`:
a tag matches when its `rel` attribute is present, non-empty, and contains
the pattern as a substring after lower-casing. -/
def relMatches (pat : String) (rel : Option String) : Bool :=
  match rel with
  | none => false
  | some r => !r.isEmpty && strContains (pyLower r) pat

/-- The relation patterns tried by `fetch_icon_for_url`, in loop order. -/
def relPatterns : List String :=
  ["icon", "shortcut icon", "apple-touch-icon", "mask-icon"]

/-- The page-link selection loop: for each pattern in order, `soup.find`
returns the first document-order link tag whose `rel` matches; if that tag
carries a non-empty `href` the loop breaks with it, otherwise the next
pattern is tried. -/
def findIconByRel (links : List LinkTag) : List String → Option String
  | [] => none
  | p :: ps =>
    match links.find? (fun tag => relMatches p tag.rel) with
    | some tag =>
      match tag.href with
      | some h => if h.isEmpty then findIconByRel links ps else some h
      | none => findIconByRel links ps
    | none => findIconByRel links ps

/-- `icon_href` as computed by the `for rel in [...]` loop over the parsed
page. -/
def findIconHref (links : List LinkTag) : Option String :=
  findIconByRel links relPatterns

/-- Outcome of one `requests.get` call: an exception, or a response with its
`ok` flag and body bytes. -/
inductive FetchOutcome
  | exn
  | resp (ok : Bool) (body : List Nat)
deriving DecidableEq

/-- `r.ok and r.content`: the body of a response that arrived with `ok`
status and a non-empty body, `none` otherwise (including exceptions). -/
def fetchSuccess : FetchOutcome → Option (List Nat)
  | .exn => none
  | .resp ok body => if ok && !body.isEmpty then some body else none

/-- An image tracked by its dimensions only. -/
structure Image where
  width : Nat
  height : Nat
deriving DecidableEq

/-- What `_save_png` writes to disk: a re-encoded PNG of an image, or the
raw input bytes. -/
inductive FileContent
  | png (im : Image)
  | raw (bytes : List Nat)
deriving DecidableEq

/-- Oracle for `PIL.Image.open(io.BytesIO(content)).convert("RGBA")`:
`none` models the decode raising. -/
structure Pil where
  decodeRGBA : List Nat → Option Image

/-- `im.resize((w, h), Image.LANCZOS)` at the level of dimensions. -/
def pilResize (_im : Image) (w h : Nat) : Image :=
  { width := w, height := h }

/-- `_save_png(content, filename)`: returns the public path
`/static/icons/<filename>` unconditionally, together with the file content
written at that path (a 128×128 PNG when the decode succeeds, the raw bytes
otherwise). -/
def save_png (pil : Pil) (content : List Nat) (filename : String) :
    String × FileContent :=
  match pil.decodeRGBA content with
  | some im => ("/static/icons/" ++ filename, .png (pilResize im 128 128))
  | none => ("/static/icons/" ++ filename, .raw content)

/-- The external world of the resolver: HTTP fetches, link-tag parsing of a
fetched page body, and `urljoin`. -/
structure Net where
  fetch : String → FetchOutcome
  parseLinks : List Nat → List LinkTag
  urljoin : String → String → String

/-- `DEFAULT_ICON` from the source. -/
def DEFAULT_ICON : String := "/static/icons/default.png"

/-- URL normalization at the top of `fetch_icon_for_url`: prepend `http://`
when the parse finds no scheme, and re-parse. -/
def normalizeUrl (site_url : String) : String × ParsedUrl :=
  let parsed := pyUrlsplit site_url
  if parsed.scheme.isEmpty then
    let s := "http://" ++ site_url
    (s, pyUrlsplit s)
  else (site_url, parsed)

/-- Step 1 of `fetch_icon_for_url` (the `<link rel=icon ...>` block): fetch
the page, select a link href, resolve and fetch it; `none` when anything in
the block fails or finds nothing, together with the URLs requested. -/
def step1 (env : Net) (pil : Pil) (site_url domain : String) :
    Option String × List String :=
  match env.fetch site_url with
  | .exn => (none, [site_url])
  | .resp _ body =>
    match findIconHref (env.parseLinks body) with
    | none => (none, [site_url])
    | some href =>
      let icon_url := env.urljoin site_url href
      match fetchSuccess (env.fetch icon_url) with
      | some c => (some (save_png pil c (domain ++ ".png")).1, [site_url, icon_url])
      | none => (none, [site_url, icon_url])

/-- The direct-favicon URL of step 2: built from the parsed scheme and the
full netloc. -/
def favUrl (parsed : ParsedUrl) : String :=
  parsed.scheme ++ "://" ++ parsed.netloc ++ "/favicon.ico"

/-- Step 2 of `fetch_icon_for_url` (the `/favicon.ico` block). -/
def step2 (env : Net) (pil : Pil) (parsed : ParsedUrl) (domain : String) :
    Option String × List String :=
  match fetchSuccess (env.fetch (favUrl parsed)) with
  | some c => (some (save_png pil c (domain ++ ".png")).1, [favUrl parsed])
  | none => (none, [favUrl parsed])

/-- The first provider URL of step 3 (Google s2 favicons). -/
def googleUrl (domain : String) : String :=
  "https://www.google.com/s2/favicons?domain=" ++ domain ++ "&sz=128"

/-- The second provider URL of step 3 (DuckDuckGo ip3 icons). -/
def duckduckgoUrl (domain : String) : String :=
  "https://icons.duckduckgo.com/ip3/" ++ domain ++ ".ico"

/-- The provider loop of step 3: try each URL in order, materializing the
first successful non-empty body. -/
def tryProviders (env : Net) (pil : Pil) (domain : String) :
    List String → Option String × List String
  | [] => (none, [])
  | u :: us =>
    match fetchSuccess (env.fetch u) with
    | some c => (some (save_png pil c (domain ++ ".png")).1, [u])
    | none =>
      let r := tryProviders env pil domain us
      (r.1, u :: r.2)

/-- `fetch_icon_for_url(site_url)`: the full fallback chain, returning the
resulting icon path and the list of URLs requested, in order. -/
def fetch_icon_for_url (env : Net) (pil : Pil) (site_url : String) :
    String × List String :=
  let u := (normalizeUrl site_url).1
  let parsed := (normalizeUrl site_url).2
  let domain := domainOf parsed.netloc
  let s1 := step1 env pil u domain
  match s1.1 with
  | some path => (path, s1.2)
  | none =>
    let s2 := step2 env pil parsed domain
    match s2.1 with
    | some path => (path, s1.2 ++ s2.2)
    | none =>
      let s3 := tryProviders env pil domain [googleUrl domain, duckduckgoUrl domain]
      match s3.1 with
      | some path => (path, s1.2 ++ s2.2 ++ s3.2)
      | none => (DEFAULT_ICON, s1.2 ++ s2.2 ++ s3.2)

/-- A stored tile record (`{"label": ..., "url": ..., "icon": ...}`). -/
structure Tile where
  label : String
  url : String
  icon : String
deriving DecidableEq

/-- The request fields read by the `/add` handler (`data.get(...)`: `none`
when absent). -/
structure AddReq where
  label : Option String := none
  url : Option String := none
  icon : Option String := none
  icon_url : Option String := none

/-- Response of the `/add` handler: a 400 client error, or success together
with the persisted tile list. -/
inductive AddOutcome
  | clientError (msg : String)
  | ok (tiles : List Tile)
deriving DecidableEq

/-- The `/add` handler: validates label and url, resolves the icon (verbatim
local path / fetch of a supplied icon URL with auto-resolve fallback / full
auto-resolve), appends the tile and persists.  `ts` models `int(time.time())`.
Also returns the URLs fetched, in order. -/
def add (env : Net) (pil : Pil) (ts : Nat) (tiles : List Tile) (req : AddReq) :
    AddOutcome × List String :=
  let label := pyStrip (pyGetOr req.label "")
  let url := pyStrip (pyGetOr req.url "")
  let icon_url := pyStrip (pyGetOr req.icon (pyGetOr req.icon_url ""))
  if label.isEmpty || url.isEmpty then
    (.clientError "label and url required", [])
  else
    let r :=
      if pyStartsWith icon_url "/static/icons/" then (icon_url, ([] : List String))
      else if icon_url.isEmpty then fetch_icon_for_url env pil url
      else
        match env.fetch icon_url with
        | .exn =>
          let a := fetch_icon_for_url env pil url
          (a.1, icon_url :: a.2)
        | .resp true c =>
          ((save_png pil c ("custom_" ++ toString ts ++ ".png")).1, [icon_url])
        | .resp false _ =>
          let a := fetch_icon_for_url env pil url
          (a.1, icon_url :: a.2)
    (.ok (tiles ++ [{ label := label, url := url, icon := r.1 }]), r.2)

/-- Response of the `/remove` and `/edit` handlers: the persisted tile list
and the unconditional `success` flag. -/
structure PostResult where
  tiles : List Tile
  success : Bool
deriving DecidableEq

/-- The `/remove` handler: rewrites the list without every tile whose url
equals the (trimmed) supplied url, then reports success. -/
def remove (tiles : List Tile) (urlField : Option String) : PostResult :=
  let url := pyStrip (pyGetOr urlField "")
  { tiles := tiles.filter (fun t => decide (t.url ≠ url)), success := true }

/-- The request fields read by the `/edit` handler. -/
structure EditReq where
  original_url : Option String := none
  label : Option String := none
  url : Option String := none
  icon : Option String := none
  icon_url : Option String := none

/-- The body of the `/edit` loop on a matched tile: label and url are set to
`(data.get(k) or t[k]).strip()`; a non-empty new icon value is taken verbatim
when it is a local icon path, otherwise fetched and materialized, the icon
being left unchanged on fetch failure. -/
def editMatchedTile (env : Net) (pil : Pil) (ts : Nat) (req : EditReq)
    (t : Tile) : Tile × List String :=
  let label := pyStrip (pyGetOr req.label t.label)
  let url := pyStrip (pyGetOr req.url t.url)
  let new_icon := pyStrip (pyGetOr req.icon (pyGetOr req.icon_url ""))
  if new_icon.isEmpty then
    ({ label := label, url := url, icon := t.icon }, [])
  else if pyStartsWith new_icon "/static/icons/" then
    ({ label := label, url := url, icon := new_icon }, [])
  else
    match env.fetch new_icon with
    | .exn => ({ label := label, url := url, icon := t.icon }, [new_icon])
    | .resp ok c =>
      if ok && !c.isEmpty then
        ({ label := label, url := url,
           icon := (save_png pil c ("custom_" ++ toString ts ++ ".png")).1 },
         [new_icon])
      else ({ label := label, url := url, icon := t.icon }, [new_icon])

/-- The `/edit` loop over the stored tiles: only the first tile whose url
equals the lookup key is rewritten (the loop breaks there); the rest of the
list is kept as is. -/
def editTiles (env : Net) (pil : Pil) (ts : Nat) (req : EditReq)
    (origUrl : String) : List Tile → List Tile × List String
  | [] => ([], [])
  | t :: rest =>
    if t.url = origUrl then
      let r := editMatchedTile env pil ts req t
      (r.1 :: rest, r.2)
    else
      let r := editTiles env pil ts req origUrl rest
      (t :: r.1, r.2)

/-- The `/edit` handler: looks the first tile up by the trimmed
`original_url`, rewrites it, persists the list and reports success
unconditionally. -/
def edit (env : Net) (pil : Pil) (ts : Nat) (tiles : List Tile)
    (req : EditReq) : PostResult × List String :=
  let origUrl := pyStrip (pyGetOr req.original_url "")
  let r := editTiles env pil ts req origUrl tiles
  ({ tiles := r.1, success := true }, r.2)

/-- Digit run with Python underscore grouping, after the first digit:
an underscore must sit between two digits. -/
def numTail : List Char → Bool
  | [] => true
  | '_' :: c :: rest => c.isDigit && numTail rest
  | '_' :: [] => false
  | c :: rest => c.isDigit && numTail rest

/-- A valid unsigned Python integer literal body: at least one digit,
underscores only between digits. -/
def numBody : List Char → Bool
  | [] => false
  | c :: rest => c.isDigit && numTail rest

/-- Decimal value of a digit list. -/
def digitsVal (cs : List Char) : Nat :=
  cs.foldl (fun a c => a * 10 + (c.toNat - '0'.toNat)) 0

/-- Model of Python `int(s)` on strings: surrounding whitespace stripped,
optional sign, decimal digits with underscore grouping; `none` when the
conversion raises `ValueError`. -/
def pyToInt (s : String) : Option Int :=
  match stripChars s.toList with
  | '-' :: rest =>
    if numBody rest then some (-(digitsVal (rest.filter (fun c => c != '_')) : Int))
    else none
  | '+' :: rest =>
    if numBody rest then some ((digitsVal (rest.filter (fun c => c != '_')) : Int))
    else none
  | rest =>
    if numBody rest then some ((digitsVal (rest.filter (fun c => c != '_')) : Int))
    else none

/-- Python `line.split()`: split on whitespace runs, dropping empty pieces. -/
def pySplitWs (line : String) : List String :=
  wordsAux line.toList []

/-- Python `p.rsplit(":", 1)[-1]`: the text after the last colon. -/
def afterLastColon (p : String) : String :=
  String.mk (afterLastChar ':' p.toList)

/-- The per-line port extraction of the netstat fallback: for each
whitespace-separated field containing a colon, parse the text after its last
colon as an integer, skipping fields where the parse fails. -/
def portsOfLine (line : String) : List Int :=
  (pySplitWs line).foldr
    (fun p acc =>
      if p.toList.contains ':' then
        match pyToInt (afterLastColon p) with
        | some n => n :: acc
        | none => acc
      else acc)
    []

/-- The listening-state markers the fallback scans lines for. -/
def listenMarkers : List String := ["LISTEN", "Ascolto", "LISTENING"]

/-- All ports extracted from the command output: ports of every line that
contains a listening-state marker, in scan order, duplicates included. -/
def extractPorts (txt : String) : List Int :=
  ((linesAux txt.toList []).filter
      (fun line => listenMarkers.any (fun m => strContains line m))).foldr
    (fun line acc => portsOfLine line ++ acc) []

/-- Insertion into a strictly increasing list, dropping duplicates. -/
def insertPort (x : Int) : List Int → List Int
  | [] => [x]
  | y :: ys =>
    if x < y then x :: y :: ys
    else if x = y then y :: ys
    else y :: insertPort x ys

/-- Python `sorted(set(l))`: the strictly increasing enumeration of the
distinct elements of `l`. -/
def sortedDedup (l : List Int) : List Int :=
  l.foldr insertPort []

/-- One entry of the `/ports` response; the netstat fallback leaves `pid`
and `proc` absent. -/
structure PortEntry where
  port : Int
  pid : Option Int := none
  proc : Option String := none
deriving DecidableEq

/-- The `/ports` payload. -/
structure PortsResult where
  ok : Bool
  ports : List PortEntry
  source : String
deriving DecidableEq

/-- The netstat fallback branch of `list_ports`, applied to the text output
of the shell command: distinct extracted ports, ascending, each entry holding
only the port. -/
def list_ports_fallback (txt : String) : PortsResult :=
  { ok := true,
    ports := (sortedDedup (extractPorts txt)).map (fun p => { port := p }),
    source := "netstat" }

/-- A parsed JSON value as `json.loads` returns it (numbers collapsed to
integers; the distinction plays no role here). -/
inductive Json
  | null
  | bool (b : Bool)
  | num (n : Int)
  | str (s : String)
  | arr (elems : List Json)
  | obj (fields : List (String × Json))

/-- `load_tiles()`: the backing file is `none` when missing, otherwise its
text; `jsonLoads` is the `json.loads` oracle (`none` models a parse error).
A missing file, blank content and a parse error all yield the empty array;
any successfully parsed value is returned as is. -/
def load_tiles (jsonLoads : String → Option Json) (file : Option String) :
    Json :=
  match file with
  | none => .arr []
  | some content =>
    let s := pyStrip content
    if s.isEmpty then .arr []
    else
      match jsonLoads s with
      | some v => v
      | none => .arr []

/-! ## Helper lemmas -/

theorem save_png_fst (pil : Pil) (c : List Nat) (f : String) :
    (save_png pil c f).1 = "/static/icons/" ++ f := by
  unfold save_png
  cases pil.decodeRGBA c <;> rfl

theorem step1_fail (env : Net) (pil : Pil) (u d : String)
    (hfail : ∀ x, fetchSuccess (env.fetch x) = none) :
    (step1 env pil u d).1 = none := by
  unfold step1
  cases env.fetch u with
  | exn => rfl
  | resp ok body =>
    cases hf : findIconHref (env.parseLinks body) with
    | none => simp [hf]
    | some href => simp [hf, hfail]

theorem step2_fail (env : Net) (pil : Pil) (parsed : ParsedUrl) (d : String)
    (hfail : ∀ x, fetchSuccess (env.fetch x) = none) :
    (step2 env pil parsed d).1 = none := by
  unfold step2
  simp [hfail]

theorem tryProviders_fail (env : Net) (pil : Pil) (d : String) (us : List String)
    (hfail : ∀ x, fetchSuccess (env.fetch x) = none) :
    (tryProviders env pil d us).1 = none := by
  induction us with
  | nil => rfl
  | cons u rest ih =>
    unfold tryProviders
    simp [hfail, ih]

theorem step1_some (env : Net) (pil : Pil) (u d p : String)
    (h : (step1 env pil u d).1 = some p) :
    p = "/static/icons/" ++ (d ++ ".png") := by
  unfold step1 at h
  cases henv : env.fetch u <;> rw [henv] at h
  case exn => simp at h
  case resp ok body =>
    cases hf : findIconHref (env.parseLinks body)
    case none => simp [hf] at h
    case some href =>
      cases hs : fetchSuccess (env.fetch (env.urljoin u href))
      case none => simp [hf, hs] at h
      case some c =>
        simp [hf, hs, save_png_fst] at h
        exact h.symm

theorem step2_some (env : Net) (pil : Pil) (parsed : ParsedUrl) (d p : String)
    (h : (step2 env pil parsed d).1 = some p) :
    p = "/static/icons/" ++ (d ++ ".png") := by
  unfold step2 at h
  repeat' split at h
  all_goals simp_all [save_png_fst]

theorem tryProviders_some (env : Net) (pil : Pil) (d : String) (us : List String)
    (p : String) (h : (tryProviders env pil d us).1 = some p) :
    p = "/static/icons/" ++ (d ++ ".png") := by
  induction us with
  | nil => exact absurd h (by simp [tryProviders])
  | cons u rest ih =>
    unfold tryProviders at h
    split at h
    · simp_all [save_png_fst]
    · exact ih h

/-! ## Claims -/

/-- C5: `_save_png` returns the public path `/static/icons/<filename>`
unconditionally; when the bytes decode, the written file is a PNG of
dimensions exactly 128×128; on decode failure the raw input bytes are
written unchanged to the same path. -/
theorem c5_save_png_contract (pil : Pil) (content : List Nat) (filename : String) :
    (save_png pil content filename).1 = "/static/icons/" ++ filename ∧
    (∀ im, pil.decodeRGBA content = some im →
      (save_png pil content filename).2 = .png { width := 128, height := 128 }) ∧
    (pil.decodeRGBA content = none →
      (save_png pil content filename).2 = .raw content) := by
  refine ⟨save_png_fst pil content filename, ?_, ?_⟩
  · intro im hd
    unfold save_png
    rw [hd]
    rfl
  · intro hd
    unfold save_png
    rw [hd]

/-- A decode oracle accepting exactly the byte list `[1]`, used to exercise
both branches of the materializer. -/
def pilProbe : Pil :=
  { decodeRGBA := fun b => if b = [1] then some { width := 7, height := 9 } else none }

/-- C5 witness: both branches of `c5_save_png_contract` at concrete bytes. -/
theorem c5_save_png_contract_witness :
    (save_png pilProbe [1] "a.png").2 = .png { width := 128, height := 128 } ∧
    (save_png pilProbe [2] "a.png").2 = .raw [2] :=
  ⟨(c5_save_png_contract pilProbe [1] "a.png").2.1 { width := 7, height := 9 } rfl,
   (c5_save_png_contract pilProbe [2] "a.png").2.2 rfl⟩

/-- C10: `load_tiles` maps a missing file, blank content and a parse error
to the empty array, and returns any successfully parsed value as is — also
when that value is not an array. -/
theorem c10_load_tiles_passthrough (jsonLoads : String → Option Json) :
    load_tiles jsonLoads none = .arr [] ∧
    (∀ content, (pyStrip content).isEmpty = true →
      load_tiles jsonLoads (some content) = .arr []) ∧
    (∀ content, (pyStrip content).isEmpty = false → jsonLoads (pyStrip content) = none →
      load_tiles jsonLoads (some content) = .arr []) ∧
    (∀ content v, (pyStrip content).isEmpty = false → jsonLoads (pyStrip content) = some v →
      load_tiles jsonLoads (some content) = v) := by
  refine ⟨rfl, ?_, ?_, ?_⟩
  · intro content h
    simp [load_tiles, h]
  · intro content h hp
    simp [load_tiles, h, hp]
  · intro content v h hp
    simp [load_tiles, h, hp]

/-- C10 witness: a backing file whose content parses as a JSON string (not
an array) is returned as that string value. -/
theorem c10_load_tiles_passthrough_witness :
    load_tiles (fun _ => some (Json.str "oops")) (some "x") = Json.str "oops" :=
  (c10_load_tiles_passthrough (fun _ => some (Json.str "oops"))).2.2.2 "x"
    (Json.str "oops") (by decide) rfl

/-- C2: `fetch_icon_for_url` is a total function (the embedding returns a
value for every input string, every network behaviour and every decoder
behaviour — exceptions inside a step only select the fallthrough branch),
its result is always a local icon path `/static/icons/<file>`, and when
every fetch attempt fails it is exactly the default icon constant. -/
theorem c2_resolver_totality (env : Net) (pil : Pil) (site_url : String) :
    (∃ f, (fetch_icon_for_url env pil site_url).1 = "/static/icons/" ++ f) ∧
    ((∀ u, fetchSuccess (env.fetch u) = none) →
      (fetch_icon_for_url env pil site_url).1 = DEFAULT_ICON) := by
  constructor
  · unfold fetch_icon_for_url
    cases h1 : (step1 env pil (normalizeUrl site_url).1
        (domainOf (normalizeUrl site_url).2.netloc)).1
    case some p =>
      exact ⟨domainOf (normalizeUrl site_url).2.netloc ++ ".png",
        by simp [h1, step1_some _ _ _ _ _ h1]⟩
    case none =>
      cases h2 : (step2 env pil (normalizeUrl site_url).2
          (domainOf (normalizeUrl site_url).2.netloc)).1
      case some p =>
        exact ⟨domainOf (normalizeUrl site_url).2.netloc ++ ".png",
          by simp [h1, h2, step2_some _ _ _ _ _ h2]⟩
      case none =>
        cases h3 : (tryProviders env pil (domainOf (normalizeUrl site_url).2.netloc)
            [googleUrl (domainOf (normalizeUrl site_url).2.netloc),
             duckduckgoUrl (domainOf (normalizeUrl site_url).2.netloc)]).1
        case some p =>
          exact ⟨domainOf (normalizeUrl site_url).2.netloc ++ ".png",
            by simp [h1, h2, h3, tryProviders_some _ _ _ _ _ h3]⟩
        case none => exact ⟨"default.png", by simp [h1, h2, h3]; rfl⟩
  · intro hfail
    unfold fetch_icon_for_url
    simp [step1_fail _ _ _ _ hfail, step2_fail _ _ _ _ hfail,
      tryProviders_fail _ _ _ _ hfail]

/-- A network on which every request raises, an HTML parse yielding no link
tags, and a decoder that always fails. -/
def envAllFail : Net :=
  { fetch := fun _ => .exn, parseLinks := fun _ => [], urljoin := fun _ h => h }

/-- A decoder that always fails. -/
def pilFail : Pil := { decodeRGBA := fun _ => none }

/-- C2 witness: with every fetch raising, the resolver returns the default
icon constant. -/
theorem c2_resolver_totality_witness :
    (fetch_icon_for_url envAllFail pilFail "example.com").1 = DEFAULT_ICON :=
  (c2_resolver_totality envAllFail pilFail "example.com").2 (fun _ => rfl)

/-- A page declaring a `mask-icon` link before an `icon` link. -/
def c1Doc : List LinkTag :=
  [{ rel := some "mask-icon", href := some "a.png" },
   { rel := some "icon", href := some "b.png" }]

/-- C1 counterexample: the claim predicts that a document containing both a
`mask-icon` (lowest priority) and an `icon` (highest priority) relation
yields the `icon` href `b.png`; the code selects the `mask-icon` href
`a.png`, because its first loop iteration matches `rel` attributes by
substring and `icon` is a substring of `mask-icon`. -/
theorem c1_priority_counterexample :
    findIconHref c1Doc = some "a.png" ∧ findIconHref c1Doc ≠ some "b.png" := by
  constructor
  · rfl
  · decide

/-- C1 (amended): the four relation patterns are checked in the stated order
but by case-insensitive substring containment, and `icon` is a substring of
all four; so whenever the first document-order link tag whose `rel` contains
`icon` carries a non-empty href, that href is selected, whatever the
relation kind — a lower-priority relation appearing earlier in the document
wins over a later higher-priority one. -/
theorem c1_link_selection_amended (links : List LinkTag) (tag : LinkTag)
    (h : String)
    (hfind : links.find? (fun t => relMatches "icon" t.rel) = some tag)
    (hhref : tag.href = some h) (hne : h.isEmpty = false) :
    findIconHref links = some h := by
  unfold findIconHref relPatterns
  unfold findIconByRel
  rw [hfind]
  simp [hhref, hne]

/-- C1 witness: the amended selection rule at the concrete document
`c1Doc`. -/
theorem c1_link_selection_amended_witness :
    findIconHref c1Doc = some "a.png" :=
  c1_link_selection_amended c1Doc
    { rel := some "mask-icon", href := some "a.png" } "a.png"
    (by decide) rfl rfl

/-- A network where exactly the spec-predicted host favicon URL
`http://example.com/favicon.ico` answers successfully; every other request
raises. -/
def envHostFavicon : Net :=
  { fetch := fun u =>
      if u = "http://example.com/favicon.ico" then .resp true [0] else .exn,
    parseLinks := fun _ => [],
    urljoin := fun _ h => h }

/-- C3 counterexample: for the site `http://user@example.com:8080/x` the
page-link step yields nothing and `<scheme>://<host>/favicon.ico` (host =
netloc with credentials and port stripped, per the specification) would be
fetched successfully with a non-empty body, so the claim predicts the result
`/static/icons/example.com.png`; the code returns the default icon and never
requests that URL, because it builds the favicon URL from the full netloc,
credentials and port included. -/
theorem c3_favicon_host_counterexample :
    fetchSuccess (envHostFavicon.fetch "http://example.com/favicon.ico") = some [0] ∧
    (fetch_icon_for_url envHostFavicon pilFail "http://user@example.com:8080/x").1 =
      DEFAULT_ICON ∧
    DEFAULT_ICON ≠ "/static/icons/example.com.png" ∧
    ((fetch_icon_for_url envHostFavicon pilFail
        "http://user@example.com:8080/x").2.contains
      "http://example.com/favicon.ico") = false := by
  refine ⟨by decide, by decide, by decide, by decide⟩

/-- C3 (amended): when the page-link step yields nothing usable, the
resolver fetches `<scheme>://<netloc>/favicon.ico`, where netloc is the full
authority component (credentials and port included; the cache key `domain`
strips them); if that fails it tries the Google provider before the
DuckDuckGo provider, in that fixed order, and the first fetch returning a
successful non-empty body is materialized under `<domain>.png` and its path
returned. -/
theorem c3_fallback_cascade_amended (env : Net) (pil : Pil) (site_url : String)
    (hstep1 : (step1 env pil (normalizeUrl site_url).1
        (domainOf (normalizeUrl site_url).2.netloc)).1 = none) :
    let parsed := (normalizeUrl site_url).2
    let domain := domainOf parsed.netloc
    let res := (fetch_icon_for_url env pil site_url).1
    favUrl parsed = parsed.scheme ++ "://" ++ parsed.netloc ++ "/favicon.ico" ∧
    (∀ c, fetchSuccess (env.fetch (favUrl parsed)) = some c →
      res = "/static/icons/" ++ (domain ++ ".png")) ∧
    (fetchSuccess (env.fetch (favUrl parsed)) = none →
      (∀ c, fetchSuccess (env.fetch (googleUrl domain)) = some c →
        res = "/static/icons/" ++ (domain ++ ".png")) ∧
      (fetchSuccess (env.fetch (googleUrl domain)) = none →
        (∀ c, fetchSuccess (env.fetch (duckduckgoUrl domain)) = some c →
          res = "/static/icons/" ++ (domain ++ ".png")) ∧
        (fetchSuccess (env.fetch (duckduckgoUrl domain)) = none →
          res = DEFAULT_ICON))) := by
  refine ⟨rfl, ?_, ?_⟩
  · intro c hc
    unfold fetch_icon_for_url
    simp [hstep1, step2, hc, save_png_fst]
  · intro hfav
    refine ⟨?_, ?_⟩
    · intro c hc
      unfold fetch_icon_for_url
      simp [hstep1, step2, hfav, tryProviders, hc, save_png_fst]
    · intro hgoogle
      refine ⟨?_, ?_⟩
      · intro c hc
        unfold fetch_icon_for_url
        simp [hstep1, step2, hfav, tryProviders, hgoogle, hc, save_png_fst]
      · intro hddg
        unfold fetch_icon_for_url
        simp [hstep1, step2, hfav, tryProviders, hgoogle, hddg]

/-- C3 witness: the amended cascade at a concrete site whose netloc favicon
answers. -/
theorem c3_fallback_cascade_amended_witness :
    (fetch_icon_for_url envHostFavicon pilFail "http://example.com/x").1 =
      "/static/icons/" ++ ("example.com" ++ ".png") :=
  ((c3_fallback_cascade_amended envHostFavicon pilFail "http://example.com/x"
      (by decide)).2.1) [0] (by decide)

theorem editMatchedTile_label (env : Net) (pil : Pil) (ts : Nat)
    (req : EditReq) (t : Tile) :
    (editMatchedTile env pil ts req t).1.label = pyStrip (pyGetOr req.label t.label) := by
  unfold editMatchedTile
  dsimp only
  repeat' split
  all_goals rfl

theorem editMatchedTile_url (env : Net) (pil : Pil) (ts : Nat)
    (req : EditReq) (t : Tile) :
    (editMatchedTile env pil ts req t).1.url = pyStrip (pyGetOr req.url t.url) := by
  unfold editMatchedTile
  dsimp only
  repeat' split
  all_goals rfl

theorem editTiles_append (env : Net) (pil : Pil) (ts : Nat) (req : EditReq)
    (origUrl : String) (pre : List Tile) (t : Tile) (post : List Tile)
    (hpre : ∀ p ∈ pre, p.url ≠ origUrl) (ht : t.url = origUrl) :
    editTiles env pil ts req origUrl (pre ++ t :: post) =
      (pre ++ (editMatchedTile env pil ts req t).1 :: post,
       (editMatchedTile env pil ts req t).2) := by
  induction pre with
  | nil => simp [editTiles, ht]
  | cons p rest ih =>
    have hp : p.url ≠ origUrl := hpre p (by simp)
    have ih2 := ih (fun q hq => hpre q (by simp [hq]))
    simp [editTiles, hp, ih2]

theorem editTiles_no_match (env : Net) (pil : Pil) (ts : Nat) (req : EditReq)
    (origUrl : String) (tiles : List Tile)
    (h : ∀ t ∈ tiles, t.url ≠ origUrl) :
    editTiles env pil ts req origUrl tiles = (tiles, []) := by
  induction tiles with
  | nil => rfl
  | cons t rest ih =>
    have ht : t.url ≠ origUrl := h t (by simp)
    have ih2 := ih (fun q hq => h q (by simp [hq]))
    simp [editTiles, ht, ih2]

/-- The tile and request of the C4 counterexample: a stored tile with label
`A` and an edit request supplying a whitespace-only label. -/
def c4Tile : Tile := { label := "A", url := "u", icon := "i" }

/-- Edit request supplying a whitespace-only replacement label. -/
def c4Req : EditReq := { original_url := some "u", label := some "   " }

/-- C4 counterexample: supplying a whitespace-only label for an existing
tile does not leave the label unchanged as the claim states; the handler
takes the truthy supplied value and strips it, setting the label to the
empty string. -/
theorem c4_blank_field_counterexample :
    (edit envAllFail pilFail 0 [c4Tile] c4Req).1.tiles =
      [{ label := "", url := "u", icon := "i" }] ∧
    (edit envAllFail pilFail 0 [c4Tile] c4Req).1.tiles ≠ [c4Tile] := by
  refine ⟨by decide, by decide⟩

/-- C4 (amended): on the first tile matched by `original_url`, label and url
are each set to the trim of the supplied value when that value is non-empty
(so a whitespace-only supplied value yields the empty string), and to the
trim of the existing value when the supplied value is empty or missing
(unchanged exactly when the existing value carries no surrounding
whitespace). -/
theorem c4_edit_update_amended (env : Net) (pil : Pil) (ts : Nat) (req : EditReq)
    (pre post : List Tile) (t : Tile)
    (hpre : ∀ p ∈ pre, p.url ≠ pyStrip (pyGetOr req.original_url ""))
    (ht : t.url = pyStrip (pyGetOr req.original_url "")) :
    ∃ t', (edit env pil ts (pre ++ t :: post) req).1.tiles = pre ++ t' :: post ∧
      (∀ s, req.label = some s → s.isEmpty = false → t'.label = pyStrip s) ∧
      ((req.label = none ∨ req.label = some "") → t'.label = pyStrip t.label) ∧
      (∀ s, req.url = some s → s.isEmpty = false → t'.url = pyStrip s) ∧
      ((req.url = none ∨ req.url = some "") → t'.url = pyStrip t.url) := by
  refine ⟨(editMatchedTile env pil ts req t).1, ?_, ?_, ?_, ?_, ?_⟩
  · unfold edit
    dsimp only
    rw [editTiles_append env pil ts req _ pre t post hpre ht]
  · intro s hs hne
    rw [editMatchedTile_label]
    simp [pyGetOr, hs, hne]
  · intro hcase
    rw [editMatchedTile_label]
    rcases hcase with h | h <;>
      simp [pyGetOr, h, show ("" : String).isEmpty = true from rfl]
  · intro s hs hne
    rw [editMatchedTile_url]
    simp [pyGetOr, hs, hne]
  · intro hcase
    rw [editMatchedTile_url]
    rcases hcase with h | h <;>
      simp [pyGetOr, h, show ("" : String).isEmpty = true from rfl]

/-- Edit request supplying a label with surrounding whitespace. -/
def c4ReqW : EditReq := { original_url := some "u", label := some " B " }

/-- C4 witness: the amended update rule at a concrete tile and request. -/
theorem c4_edit_update_amended_witness :
    ∃ t', (edit envAllFail pilFail 0 ([] ++ c4Tile :: []) c4ReqW).1.tiles =
        [] ++ t' :: [] ∧
      (∀ s, c4ReqW.label = some s → s.isEmpty = false → t'.label = pyStrip s) ∧
      ((c4ReqW.label = none ∨ c4ReqW.label = some "") →
        t'.label = pyStrip c4Tile.label) ∧
      (∀ s, c4ReqW.url = some s → s.isEmpty = false → t'.url = pyStrip s) ∧
      ((c4ReqW.url = none ∨ c4ReqW.url = some "") → t'.url = pyStrip c4Tile.url) :=
  c4_edit_update_amended envAllFail pilFail 0 c4ReqW [] [] c4Tile
    (by simp) (by decide)

/-- C6: `POST /add` rejects with a 400 client error every request whose
label or url is blank after trimming; and a supplied icon value that starts
with the local icon path prefix is stored verbatim as the new tile icon,
with no network fetch performed (empty fetch trace). -/
theorem c6_add_validation_local_icon (env : Net) (pil : Pil) (ts : Nat)
    (tiles : List Tile) (req : AddReq) :
    (((pyStrip (pyGetOr req.label "")).isEmpty = true ∨
        (pyStrip (pyGetOr req.url "")).isEmpty = true) →
      add env pil ts tiles req = (.clientError "label and url required", [])) ∧
    (∀ v, req.icon = some v → pyStrip v = v → v.isEmpty = false →
      pyStartsWith v "/static/icons/" = true →
      (pyStrip (pyGetOr req.label "")).isEmpty = false →
      (pyStrip (pyGetOr req.url "")).isEmpty = false →
      add env pil ts tiles req =
        (.ok (tiles ++ [{ label := pyStrip (pyGetOr req.label ""),
                          url := pyStrip (pyGetOr req.url ""),
                          icon := v }]), [])) := by
  constructor
  · intro h
    unfold add
    rcases h with h | h <;> simp [h]
  · intro v hv htrim hne hpre hlab hurl
    unfold add
    rw [hv]
    simp [pyGetOr, hne, htrim, hpre, hlab, hurl]
    constructor
    · simpa [pyGetOr] using hlab
    · simpa [pyGetOr] using hurl

/-- C6 witness: adding with a local icon path stores it verbatim and fetches
nothing. -/
theorem c6_add_validation_local_icon_witness :
    add envAllFail pilFail 0 []
        { label := some "L", url := some "u", icon := some "/static/icons/a.png" } =
      (.ok ([] ++ [{ label := pyStrip (pyGetOr (some "L") ""),
                     url := pyStrip (pyGetOr (some "u") ""),
                     icon := "/static/icons/a.png" }]), []) :=
  (c6_add_validation_local_icon envAllFail pilFail 0 []
      { label := some "L", url := some "u", icon := some "/static/icons/a.png" }).2
    "/static/icons/a.png" rfl (by decide) (by decide) (by decide) (by decide) (by decide)

/-- C7: an edit request whose `original_url` matches no stored tile leaves
the stored list unchanged (same tiles, same order, same fields), performs no
fetch, and still reports success. -/
theorem c7_edit_no_match_frame (env : Net) (pil : Pil) (ts : Nat)
    (tiles : List Tile) (req : EditReq)
    (h : ∀ t ∈ tiles, t.url ≠ pyStrip (pyGetOr req.original_url "")) :
    (edit env pil ts tiles req).1 = { tiles := tiles, success := true } ∧
    (edit env pil ts tiles req).2 = [] := by
  unfold edit
  dsimp only
  rw [editTiles_no_match env pil ts req _ tiles h]
  exact ⟨rfl, rfl⟩

/-- C7 witness: editing a nonexistent url at a concrete store. -/
theorem c7_edit_no_match_frame_witness :
    (edit envAllFail pilFail 0 [c4Tile] { original_url := some "zz" }).1 =
      { tiles := [c4Tile], success := true } :=
  (c7_edit_no_match_frame envAllFail pilFail 0 [c4Tile]
    { original_url := some "zz" } (by decide)).1

/-- C8: `POST /remove` removes every tile whose url equals the trimmed
supplied url (all occurrences), keeps the remaining tiles in their original
order (the result is a sublist of the store), leaves the list unchanged when
no tile matches, and always reports success. -/
theorem c8_remove_semantics (tiles : List Tile) (urlField : Option String) :
    (∀ t, t ∈ (remove tiles urlField).tiles ↔
      t ∈ tiles ∧ t.url ≠ pyStrip (pyGetOr urlField "")) ∧
    (remove tiles urlField).tiles.Sublist tiles ∧
    ((∀ t ∈ tiles, t.url ≠ pyStrip (pyGetOr urlField "")) →
      (remove tiles urlField).tiles = tiles) ∧
    (remove tiles urlField).success = true := by
  refine ⟨?_, ?_, ?_, rfl⟩
  · intro t
    simp [remove, List.mem_filter]
  · exact List.filter_sublist tiles
  · intro h
    simp only [remove]
    exact List.filter_eq_self.mpr (fun t ht => by simpa using h t ht)

/-- C8 witness: removing an absent url is a no-op on a concrete store. -/
theorem c8_remove_semantics_witness :
    (remove [c4Tile] (some "zz")).tiles = [c4Tile] :=
  (c8_remove_semantics [c4Tile] (some "zz")).2.2.1 (by decide)

theorem mem_insertPort (x a : Int) (l : List Int) :
    a ∈ insertPort x l ↔ a = x ∨ a ∈ l := by
  induction l with
  | nil => simp [insertPort]
  | cons y ys ih =>
    by_cases h1 : x < y <;> by_cases h2 : x = y <;>
      simp [insertPort, h1, h2, ih] <;> tauto

theorem sorted_insertPort (x : Int) (l : List Int) (h : l.Sorted (· < ·)) :
    (insertPort x l).Sorted (· < ·) := by
  induction l with
  | nil => simp [insertPort]
  | cons y ys ih =>
    have hy : ∀ b ∈ ys, y < b := (List.sorted_cons.mp h).1
    have hys : ys.Sorted (· < ·) := (List.sorted_cons.mp h).2
    by_cases h1 : x < y
    · rw [show insertPort x (y :: ys) = x :: y :: ys by simp [insertPort, h1]]
      refine List.sorted_cons.mpr ⟨?_, h⟩
      intro b hb
      rcases List.mem_cons.mp hb with rfl | hb
      · exact h1
      · exact h1.trans (hy b hb)
    · by_cases h2 : x = y
      · rw [show insertPort x (y :: ys) = y :: ys by simp [insertPort, h1, h2]]
        exact h
      · have hlt : y < x := lt_of_le_of_ne (not_lt.mp h1) (Ne.symm h2)
        rw [show insertPort x (y :: ys) = y :: insertPort x ys by
          simp [insertPort, h1, h2]]
        refine List.sorted_cons.mpr ⟨?_, ih hys⟩
        intro b hb
        rcases (mem_insertPort x b ys).mp hb with rfl | hb
        · exact hlt
        · exact hy b hb

theorem sortedDedup_sorted (l : List Int) : (sortedDedup l).Sorted (· < ·) := by
  induction l with
  | nil => simp [sortedDedup]
  | cons x xs ih => exact sorted_insertPort x (sortedDedup xs) ih

theorem mem_sortedDedup (l : List Int) (a : Int) :
    a ∈ sortedDedup l ↔ a ∈ l := by
  induction l with
  | nil => simp [sortedDedup]
  | cons x xs ih =>
    rw [show sortedDedup (x :: xs) = insertPort x (sortedDedup xs) from rfl,
      mem_insertPort]
    simp [ih]

/-- C9: the netstat fallback of the port lister returns the extracted
listening ports each exactly once (the projected port list is duplicate
free and contains a port iff it was extracted from the command output),
sorted in ascending order, and each entry carries only a port — no pid and
no process name. -/
theorem c9_fallback_ports_shape (txt : String) :
    ((list_ports_fallback txt).ports.map PortEntry.port).Sorted (· < ·) ∧
    ((list_ports_fallback txt).ports.map PortEntry.port).Nodup ∧
    (∀ p : Int, p ∈ (list_ports_fallback txt).ports.map PortEntry.port ↔
      p ∈ extractPorts txt) ∧
    (∀ e ∈ (list_ports_fallback txt).ports, e.pid = none ∧ e.proc = none) ∧
    (list_ports_fallback txt).ok = true ∧
    (list_ports_fallback txt).source = "netstat" := by
  have hmap : (list_ports_fallback txt).ports.map PortEntry.port =
      sortedDedup (extractPorts txt) := by
    simp only [list_ports_fallback, List.map_map]
    exact List.map_id _
  refine ⟨?_, ?_, ?_, ?_, rfl, rfl⟩
  · rw [hmap]; exact sortedDedup_sorted _
  · rw [hmap]; exact (sortedDedup_sorted _).nodup
  · intro p
    rw [hmap]
    exact mem_sortedDedup _ p
  · intro e he
    simp only [list_ports_fallback, List.mem_map] at he
    obtain ⟨p, _, rfl⟩ := he
    exact ⟨rfl, rfl⟩

/-- C9 witness: the port 80 extracted from a concrete netstat line appears
in the fallback entries. -/
theorem c9_fallback_ports_shape_witness :
    (80 : Int) ∈ (list_ports_fallback "a:80 LISTEN").ports.map PortEntry.port :=
  ((c9_fallback_ports_shape "a:80 LISTEN").2.2.1 80).mpr (by decide)
